import Mathlib

/-!
Verification of the Knowspace Appwrite functions.

This file gives a shallow embedding of the request handlers of the
repository and proves properties of them:

- the quota helpers of src/createWithAI/index.js
  (getUsageFieldForRequestType, checkUserPreferences, decrementUserQuota);
- the HTML content validator isValidHTMLContent of the same file,
  including a declarative characterization of its two regular expressions;
- the orchestrator (default handler) of src/createWithAI/index.js,
  modelled as a function from an environment of external-call outcomes to
  a response together with a trace of tracking updates, persisted article
  documents and quota writes;
- the second handler of src/main.js (fetch user by a contains query);
- the per-user step of the daily preferences reset of src/unnamed/part_000.

Modelling conventions: JavaScript strings are Lean String values and a
missing or empty required field is modelled as the empty string (both are
falsy in the source checks). Preference records are finite maps from
field names to optional integers (the quota code only reads and writes
integer fields, and the merge operator is value-agnostic). External SDK
and HTTP calls are oracles supplied in an environment record: each call
site reads its outcome from the environment, mirroring the sequential
control flow of the source.
-/

/-- One step of the character-list matcher behind strIncludes: the pattern
matches at the head of the subject. -/
def chunkAt : List Char → List Char → Bool
  | [], _ => true
  | _ :: _, [] => false
  | p :: ps, c :: cs => p == c && chunkAt ps cs

/-- The pattern occurs somewhere in the subject list. -/
def hasChunk (pat : List Char) : List Char → Bool
  | [] => chunkAt pat []
  | c :: cs => chunkAt pat (c :: cs) || hasChunk pat cs

/-- JavaScript String.prototype.includes. -/
def strIncludes (s pat : String) : Bool := hasChunk pat.toList s.toList

/-- A user preference record: field name to optional integer value.
A field mapped to none is absent from the record. -/
abbrev Prefs := String → Option Int

/-- An error thrown by an Appwrite SDK call: numeric code and message. -/
structure AwErr where
  code : Int
  message : String
deriving DecidableEq

/-- JavaScript String.prototype.toLowerCase, mapping the ASCII lower-case
function over the characters. -/
def jsToLowerCase (s : String) : String := String.mk (s.toList.map Char.toLower)

/-- JavaScript whitespace as removed by String.prototype.trim: spaces,
tabs, line breaks and the other common space characters. -/
def jsWhitespace (c : Char) : Bool :=
  c == ' ' || c == '\t' || c == '\n' || c == '\r' || c == '\x0b' ||
    c == '\x0c' || c == '\u00a0' || c == '\ufeff' || c == '\u2028' || c == '\u2029'

/-- JavaScript String.prototype.trim: drop whitespace from both ends. -/
def jsTrim (s : String) : String :=
  String.mk (((s.toList.dropWhile jsWhitespace).reverse.dropWhile jsWhitespace).reverse)

/-- src/createWithAI/index.js getUsageFieldForRequestType: lower-case the
request type and map ultra, pro, basic to their usage field names;
anything else yields null. -/
def getUsageFieldForRequestType (requestType : String) : Option String :=
  match jsToLowerCase requestType with
  | "ultra" => some "ultra_uses"
  | "pro" => some "pro_uses"
  | "basic" => some "basic_uses"
  | _ => none

/-- The default preference record created when the upstream lookup reports
not-found: all three usage counters present with value 0. -/
def defaultQuotaPrefs : Prefs := fun f =>
  if f = "basic_uses" ∨ f = "pro_uses" ∨ f = "ultra_uses" then some 0 else none

/-- The not-found test applied to a preference lookup error in both
checkUserPreferences and decrementUserQuota: code 404 or a message
containing the substring not found. -/
def isNotFoundErr (e : AwErr) : Bool :=
  e.code == 404 || strIncludes e.message "not found"

/-- The inner try/catch around users.getPrefs shared by
checkUserPreferences and decrementUserQuota: a not-found error is
replaced by the zero-valued default record, any other error is re-thrown
(modelled as an error result carrying the message). -/
def resolvePrefs (r : Except AwErr Prefs) : Except String Prefs :=
  match r with
  | .ok p => .ok p
  | .error e => if isNotFoundErr e then .ok defaultQuotaPrefs else .error e.message

/-- src/createWithAI/index.js checkUserPreferences. The prefsRes argument
is the outcome of the users.getPrefs call. The function returns ok when
the job may proceed and an error message otherwise; every exception is
caught by its own outer catch and converted into an error result. -/
def checkUserPreferences (userId requestType : String)
    (prefsRes : Except AwErr Prefs) : Except String Unit :=
  if userId = "" then .error "Invalid user ID format."
  else
    match resolvePrefs prefsRes with
    | .error m => .error m
    | .ok userPrefs =>
      match getUsageFieldForRequestType requestType with
      | none => .error "Invalid request type."
      | some usageField =>
        let remainingUses := (userPrefs usageField).getD 0
        if remainingUses ≤ 0 then
          .error ("Insufficient " ++ requestType ++ " uses.")
        else .ok ()

/-- src/createWithAI/index.js decrementUserQuota. The prefsRes argument is
the outcome of the users.getPrefs call inside the function. The result is
the preference record passed to users.updatePrefs, or none when the
function returns without attempting a write (invalid user id, rethrown
lookup error swallowed by the outer catch, or invalid request type). The
source also checks that the merged record is an object, which always
holds. -/
def decrementUserQuota (userId requestType : String)
    (prefsRes : Except AwErr Prefs) : Option Prefs :=
  if userId = "" then none
  else
    match resolvePrefs prefsRes with
    | .error _ => none
    | .ok currentPrefs =>
      match getUsageFieldForRequestType requestType with
      | none => none
      | some usageField =>
        let currentUses := (currentPrefs usageField).getD 0
        let newUses := max 0 (currentUses - 1)
        some (fun f => if f = usageField then some newUses else currentPrefs f)

/-! ## The HTML content validator

isValidHTMLContent tests the two case-insensitive regular expressions
matching an h2 element pair and a p element pair. Without the dotall
flag the dot of the pattern matches every character except the line
terminators. The scanners below implement the two patterns directly. -/

/-- Case-insensitive character comparison, as the i flag of the source
regular expressions canonicalizes ASCII letters. -/
def ciEq (a b : Char) : Bool := a.toLower == b.toLower

/-- Case-insensitive equality of two character lists. -/
def ciListEq : List Char → List Char → Bool
  | [], [] => true
  | a :: as, b :: bs => ciEq a b && ciListEq as bs
  | _, _ => false

/-- The pattern is a case-insensitive leading segment of the subject. -/
def ciStarts : List Char → List Char → Bool
  | [], _ => true
  | _ :: _, [] => false
  | p :: ps, c :: cs => ciEq c p && ciStarts ps cs

/-- JavaScript regular-expression line terminators, which the dot does not
match. -/
def isLineTerm (c : Char) : Bool :=
  c == '\n' || c == '\r' || c == '\u2028' || c == '\u2029'

/-- Scan for the closing tag: either the close pattern matches here, or the
current character is a dot character (not a line terminator) and the scan
continues. -/
def scanClose (close : List Char) : List Char → Bool
  | [] => false
  | c :: rest => ciStarts close (c :: rest) || (!isLineTerm c && scanClose close rest)

/-- Consume the attribute part: skip characters other than the closing
angle bracket, and at the first closing angle bracket continue with the
body scan. -/
def scanGt (close : List Char) : List Char → Bool
  | [] => false
  | c :: rest => if c == '>' then scanClose close rest else scanGt close rest

/-- Try the opening tag at every position of the subject. -/
def scanOpen (opener close : List Char) : List Char → Bool
  | [] => false
  | c :: rest =>
    (ciStarts opener (c :: rest) && scanGt close ((c :: rest).drop opener.length))
      || scanOpen opener close rest

/-- src/createWithAI/index.js isValidHTMLContent: the content matches the
h2 pattern or the p pattern, case-insensitively. -/
def isValidHTMLContent (html : String) : Bool :=
  scanOpen "<h2".toList "</h2>".toList html.toList
    || scanOpen "<p".toList "</p>".toList html.toList

/-- Declarative reading of one of the two source regular expressions: the
subject decomposes into a position where the opener appears
case-insensitively, followed by attribute characters none of which is a
closing angle bracket, the closing angle bracket, body characters none of
which is a line terminator, and the closing tag case-insensitively. -/
def RegexHit (opener close : List Char) (s : List Char) : Prop :=
  ∃ pre op attrs body cl post,
    s = pre ++ (op ++ (attrs ++ (('>' :: body) ++ (cl ++ post)))) ∧
    ciListEq op opener = true ∧
    (∀ c ∈ attrs, c ≠ '>') ∧
    (∀ c ∈ body, isLineTerm c = false) ∧
    ciListEq cl close = true

/-! ## The orchestrator of src/createWithAI/index.js -/

/-- The sources field of the parsed request body. The destructuring
default applies only when the property is absent; a null value survives
destructuring and makes the length access in the logging section throw. -/
inductive SourcesVal where
  | absent
  | nullVal
  | items (xs : List String)
deriving DecidableEq

/-- The parsed request body of a generation job. Required string fields
model a missing field as the empty string (both falsy in the source
validation). requestType and style carry their destructuring defaults
basic and moderate when absent from the body. -/
structure Input where
  userId : String
  prompt : String
  title : String
  sources : SourcesVal
  category : String
  requestType : String
  style : String
  trackingId : String
deriving DecidableEq

/-- Outcomes of the external calls made by one orchestrator invocation, in
program order: request method, body parse result, the users.getPrefs call
of checkUserPreferences, the Gemini generateContent call, the users.get
call of getUserDetails, the databases.createDocument call of
createArticleDocument, and the users.getPrefs call of
decrementUserQuota. -/
structure Env where
  method : String
  body : Except String Input
  prefs1 : Except AwErr Prefs
  gemini : Except String String
  userGet : Except String String
  createDoc : Except String String
  prefs2 : Except AwErr Prefs

/-- One call to updateTrackingStatus as recorded in the tracking store:
document id, new status, error message (empty string when none) and the
optional postId link. -/
structure TrackingUpdate where
  trackingId : String
  status : String
  errorMsg : String
  postId : Option String
deriving DecidableEq

/-- The JSON response of the handler. The CORS preflight branch returns a
body with no success flag, hence the optional success field. -/
structure JsonResponse where
  success : Option Bool
  error : Option String
  message : Option String
  trackingId : Option String
  articleId : Option String
  status : Nat
deriving DecidableEq

/-- The observable outcome of one orchestrator invocation: the response
and the traces of tracking updates, persisted article document ids and
preference records written by the quota decrement. -/
structure HResult where
  response : JsonResponse
  trackingUpdates : List TrackingUpdate
  articlesCreated : List String
  quotaWrites : List Prefs

/-- CONFIG.MAX_OUTPUT_TOKENS of src/createWithAI/index.js, used by the
style validation. -/
def maxOutputTokens : String → Option Nat
  | "concise" => some 30000
  | "moderate" => some 45000
  | "extended" => some 60000
  | _ => none

/-- src/createWithAI/index.js generateArticleContent: a thrown backend
error is converted into a failure with a prefixed message; an empty or
whitespace-only text is a failure with a fixed message; otherwise the
text is returned. -/
def generateArticleContent (gemini : Except String String) : Except String String :=
  match gemini with
  | .error m => .error ("Failed to generate content: " ++ m)
  | .ok t => if jsTrim t = "" then .error "Generated content is empty" else .ok t

/-- src/createWithAI/index.js getUserDetails: the user name, with the
fallback Anonymous on a missing name or a failed lookup. -/
def getUserDetails (userGet : Except String String) : String :=
  match userGet with
  | .ok name => if name = "" then "Anonymous" else name
  | .error _ => "Anonymous"

/-- src/createWithAI/index.js updateTrackingStatus: the update payload
always carries the status and the error string (empty when none), and the
postId field only when the post id is truthy. -/
def mkTrackingUpdate (tid status errorMessage : String)
    (postId : Option String) : TrackingUpdate :=
  { trackingId := tid, status := status, errorMsg := errorMessage,
    postId :=
      match postId with
      | some p => if p = "" then none else some p
      | none => none }

/-- An error JSON response of the orchestrator: success false, the error
message and the HTTP status. -/
def errResp (status : Nat) (msg : String) : JsonResponse :=
  { success := some false, error := some msg, message := none,
    trackingId := none, articleId := none, status := status }

/-- An error outcome with an empty effect trace. -/
def errResult (status : Nat) (msg : String) : HResult :=
  { response := errResp status msg, trackingUpdates := [],
    articlesCreated := [], quotaWrites := [] }

/-- The top-level catch of the orchestrator. The source declares an outer
variable trackingId initialized to null, but the destructuring of the
request body introduces a new constant of the same name scoped to the try
block; the catch block therefore always reads the outer null, skips the
guarded tracking-status update, and returns the 500 response with the
exception message. No tracking update is ever performed here. -/
def fatalCatchResult (msg : String) : HResult := errResult 500 msg

/-- The CORS preflight branch: an empty 200 response and no effects. -/
def corsOkResult : HResult :=
  { response := { success := none, error := none, message := none,
                  trackingId := none, articleId := none, status := 200 },
    trackingUpdates := [], articlesCreated := [], quotaWrites := [] }

/-- The missing-fields validation message of the orchestrator. -/
def missingFieldsMsg : String :=
  "Missing required fields: userId, prompt, title, category, trackingId"

/-- The invalid-style validation message of the orchestrator. -/
def invalidStyleMsg : String :=
  "Invalid style. Must be concise, moderate, or extended"

/-- The content-validation failure message of the orchestrator. -/
def validationFailedMsg : String :=
  "Content validation failed: must include <h2> or <p> tags for TinyMCE compatibility"

/-- The article-persistence failure message of the orchestrator. -/
def createArticleFailedMsg : String := "Failed to create article document"

/-- The TypeError message thrown by the length access on a null sources
value in the logging section, before validation. -/
def nullSourcesMsg : String :=
  "Cannot read properties of null (reading \x27length\x27)"

/-- The try block of the orchestrator after a successful body parse, in
program order: the logging section (a null sources value throws here, to
the top-level catch); field and style validation; quota check (step 1);
tracking set to inprogress (step 2); content generation (step 3); HTML
validation (step 5); author lookup and article creation (step 6);
tracking set to completed with the article id (step 7); quota decrement
(step 8); success response. The contents of the created article document
(title, body, category, inactive status, author name) are not tracked,
only its id. -/
def handlerBody (env : Env) (input : Input) : HResult :=
  if input.sources = SourcesVal.nullVal then fatalCatchResult nullSourcesMsg
  else if input.userId = "" ∨ input.prompt = "" ∨ input.title = "" ∨
      input.category = "" ∨ input.trackingId = "" then
        errResult 400 missingFieldsMsg
      else if (maxOutputTokens input.style).isNone then
        errResult 400 invalidStyleMsg
      else
        match checkUserPreferences input.userId input.requestType env.prefs1 with
        | .error e => errResult 403 e
        | .ok _ =>
          let t1 := mkTrackingUpdate input.trackingId "inprogress" "" none
          match generateArticleContent env.gemini with
          | .error e =>
            { response := errResp 500 e,
              trackingUpdates := [t1, mkTrackingUpdate input.trackingId "failed" e none],
              articlesCreated := [], quotaWrites := [] }
          | .ok content =>
            if isValidHTMLContent content = false then
              { response := errResp 500 validationFailedMsg,
                trackingUpdates :=
                  [t1, mkTrackingUpdate input.trackingId "failed" validationFailedMsg none],
                articlesCreated := [], quotaWrites := [] }
            else
              let _authorName := getUserDetails env.userGet
              match env.createDoc with
              | .error _ =>
                { response := errResp 500 createArticleFailedMsg,
                  trackingUpdates :=
                    [t1, mkTrackingUpdate input.trackingId "failed" createArticleFailedMsg none],
                  articlesCreated := [], quotaWrites := [] }
              | .ok docId =>
                { response := { success := some true, error := none,
                                message := some "Article generated successfully",
                                trackingId := some input.trackingId,
                                articleId := some docId, status := 200 },
                  trackingUpdates :=
                    [t1, mkTrackingUpdate input.trackingId "completed" "" (some docId)],
                  articlesCreated := [docId],
                  quotaWrites :=
                    (decrementUserQuota input.userId input.requestType env.prefs2).toList }

/-- The default export of src/createWithAI/index.js: CORS preflight, then
the try block (a body parse failure throws to the top-level catch), then
the per-request pipeline handlerBody. -/
def handler (env : Env) : HResult :=
  if env.method = "OPTIONS" then corsOkResult
  else
    match env.body with
    | .error parseMsg => fatalCatchResult parseMsg
    | .ok input => handlerBody env input

/-! ## The contains-search fetch-user handler (second handler of src/main.js) -/

/-- A thrown JavaScript error as inspected by the catch block: an optional
numeric code property and the message. -/
structure JsError where
  code : Option Int
  message : String
deriving DecidableEq

/-- The response of the fetch-user handler: an error response with status
and error field, or the success response (never reached, kept for
completeness of the type). -/
inductive FetchResp where
  | failure (status : Nat) (errorMsg : String)
  | ok (userId : String)
deriving DecidableEq

/-- The parsed request body of the fetch-user handler; only userId is
read before the throwing statement. A missing userId is the empty
string. -/
structure FetchBody where
  userId : String
deriving DecidableEq

/-- The inputs of one fetch-user invocation: which of the three
environment variables are set, the request method and the body parse
outcome. -/
structure FetchEnv where
  endpointSet : Bool
  projectSet : Bool
  apiKeySet : Bool
  method : String
  body : Except String FetchBody

/-- The TypeError raised by evaluating console.console.log: the console
object has no console property, so the log access is a property read on
undefined. The error has no code property. -/
def consoleConsoleError : JsError :=
  { code := none, message := "Cannot read properties of undefined (reading \x27log\x27)" }

/-- The catch block of the fetch-user handler, dispatching on the error
code, then on the fulltext-index message test, with the generic 500
response as the final case. -/
def fetchUserCatch (e : JsError) : FetchResp :=
  if e.code = some 401 then .failure 401 "Unauthorized access"
  else if e.code = some 404 then .failure 404 "User not found"
  else if e.code = some 429 then .failure 429 "Rate limit exceeded"
  else if e.code = some 400 then .failure 400 "Bad request"
  else if strIncludes e.message "fulltext index" then
    .failure 400 "Search index not configured"
  else .failure 500 "Failed to fetch user"

/-- The second default export of src/main.js. After the environment
checks, the method check, body parsing and userId validation, the next
statement evaluates console.console.log and throws; every later statement
of the try block (the Query.contains user search and the success
response) is unreachable, and the handler returns the catch result for
the TypeError. -/
def fetchUserByContains (env : FetchEnv) : FetchResp :=
  if env.endpointSet = false then .failure 500 "Missing configuration"
  else if env.projectSet = false then .failure 500 "Missing configuration"
  else if env.apiKeySet = false then .failure 500 "Missing configuration"
  else if env.method ≠ "POST" then .failure 405 "Method not allowed. Use POST."
  else
    match env.body with
    | .error _ => .failure 400 "Invalid JSON in request body"
    | .ok b =>
      if b.userId = "" ∨ jsTrim b.userId = "" then
        .failure 400 "userId parameter is required and must be a non-empty string"
      else
        fetchUserCatch consoleConsoleError

/-! ## The daily preferences reset (src/unnamed/part_000) -/

/-- The empty preference record. -/
def emptyPrefs : Prefs := fun _ => none

/-- The usage values chosen per user by the daily reset: 999 for each tier
for admin users, otherwise 10, 5 and 3. -/
def dailyUsageValues (adminUser : Bool) : Prefs := fun f =>
  if f = "basic_uses" then some (if adminUser then 999 else 10)
  else if f = "pro_uses" then some (if adminUser then 999 else 5)
  else if f = "ultra_uses" then some (if adminUser then 999 else 3)
  else none

/-- The admin test of the daily reset: the labels value is present, is an
array, and includes the admin label. -/
def isAdminUser (labels : Option (List String)) : Bool :=
  match labels with
  | some l => l.contains "admin"
  | none => false

/-- The preference record written for one user by the daily reset: the
existing preferences (an absent record is the empty one) spread-merged
with the three usage values, which override only those three fields. -/
def dailyPrefsForUser (userPrefs : Option Prefs)
    (labels : Option (List String)) : Prefs :=
  let existingPrefs := userPrefs.getD emptyPrefs
  fun f =>
    match dailyUsageValues (isAdminUser labels) f with
    | some v => some v
    | none => existingPrefs f

/-! ## Concrete instances used by the witnesses and counterexamples -/

/-- A preference record with two basic uses left. -/
def c1Prefs : Prefs := fun f => if f = "basic_uses" then some 2 else none

/-- A well-formed generation request. -/
def c1Input : Input :=
  { userId := "user1", prompt := "prompt1", title := "title1",
    sources := SourcesVal.items [], category := "cat1", requestType := "basic",
    style := "moderate", trackingId := "trackA" }

/-- An invocation in which every external call succeeds. -/
def c1Env : Env :=
  { method := "POST", body := .ok c1Input, prefs1 := .ok c1Prefs,
    gemini := .ok "<p>x</p>", userGet := .ok "Alice", createDoc := .ok "doc1",
    prefs2 := .ok c1Prefs }

/-- A preference record with zero basic uses left. -/
def c1CexPrefs : Prefs := fun f => if f = "basic_uses" then some 0 else none

/-- A well-formed generation request used for the exhausted-quota run. -/
def c1CexInput : Input :=
  { userId := "user1", prompt := "prompt1", title := "title1",
    sources := SourcesVal.items [], category := "cat1", requestType := "basic",
    style := "moderate", trackingId := "trackB" }

/-- An invocation whose quota check fails: the handler answers with an
error response without touching the tracking record. -/
def c1CexEnv : Env :=
  { method := "POST", body := .ok c1CexInput, prefs1 := .ok c1CexPrefs,
    gemini := .ok "<p>x</p>", userGet := .ok "Alice", createDoc := .ok "doc1",
    prefs2 := .ok c1CexPrefs }

/-- The number of terminal tracking transitions in a handler outcome. -/
def terminalUpdateCount (r : HResult) : Nat :=
  (r.trackingUpdates.filter
    (fun u => u.status == "completed" || u.status == "failed")).length

/-- A preference record with three basic uses left. -/
def c2Prefs : Prefs := fun f => if f = "basic_uses" then some 3 else none

/-- A well-formed generation request for the empty-generation run. -/
def c2Input : Input :=
  { userId := "user2", prompt := "prompt2", title := "title2",
    sources := SourcesVal.items [], category := "cat2", requestType := "basic",
    style := "moderate", trackingId := "trackC" }

/-- An invocation in which the generation backend returns empty text. -/
def c2Env : Env :=
  { method := "POST", body := .ok c2Input, prefs1 := .ok c2Prefs,
    gemini := .ok "", userGet := .ok "Bob", createDoc := .ok "doc2",
    prefs2 := .ok c2Prefs }

/-- A request whose body carries a tracking id together with a null
sources value. -/
def c3Input : Input :=
  { userId := "user3", prompt := "prompt3", title := "title3",
    sources := SourcesVal.nullVal, category := "cat3", requestType := "basic",
    style := "moderate", trackingId := "trackD" }

/-- An invocation that throws in the logging section: the sources length
access raises a TypeError before validation. -/
def c3Env : Env :=
  { method := "POST", body := .ok c3Input, prefs1 := .ok defaultQuotaPrefs,
    gemini := .ok "<p>x</p>", userGet := .ok "Cara", createDoc := .ok "doc3",
    prefs2 := .ok defaultQuotaPrefs }

/-- A preference record with zero basic uses, for the decrement-at-zero
witness. -/
def c4Prefs : Prefs := fun f => if f = "basic_uses" then some 0 else none

/-- A preference record with zero basic uses left, for the quota-refusal
run. -/
def c7Prefs : Prefs := fun f => if f = "basic_uses" then some 0 else none

/-- A well-formed generation request for the quota-refusal run. -/
def c7Input : Input :=
  { userId := "user7", prompt := "prompt7", title := "title7",
    sources := SourcesVal.items [], category := "cat7", requestType := "basic",
    style := "moderate", trackingId := "trackE" }

/-- An invocation whose quota counter for the requested tier is zero. -/
def c7Env : Env :=
  { method := "POST", body := .ok c7Input, prefs1 := .ok c7Prefs,
    gemini := .ok "<p>x</p>", userGet := .ok "Dan", createDoc := .ok "doc7",
    prefs2 := .ok c7Prefs }

/-- A preference record with five basic uses and an unrelated field. -/
def c8Prefs : Prefs := fun f =>
  if f = "basic_uses" then some 5 else if f = "bio" then some 7 else none

/-- The record written back by the decrement on c8Prefs. -/
def c8Written : Prefs := fun f =>
  if f = "basic_uses" then some (max 0 ((c8Prefs "basic_uses").getD 0 - 1))
  else c8Prefs f

/-- A fully configured POST invocation of the fetch-user handler with a
valid userId. -/
def c9Env : FetchEnv :=
  { endpointSet := true, projectSet := true, apiKeySet := true,
    method := "POST", body := .ok { userId := "abc123" } }

/-- A preference record with one unrelated field, for the daily-reset
witness. -/
def c10Prefs : Prefs := fun f => if f = "bio" then some 9 else none

/-! ## Auxiliary lemmas -/

theorem ciListEq_length : ∀ a b : List Char, ciListEq a b = true → a.length = b.length
  | [], [], _ => rfl
  | a :: as, b :: bs, h => by
    simp only [ciListEq, Bool.and_eq_true] at h
    simp [ciListEq_length as bs h.2]
  | [], _ :: _, h => by simp [ciListEq] at h
  | _ :: _, [], h => by simp [ciListEq] at h

theorem ciStarts_iff (pat : List Char) :
    ∀ s, ciStarts pat s = true ↔ ∃ op rest, s = op ++ rest ∧ ciListEq op pat = true := by
  induction pat with
  | nil =>
    intro s
    simp only [ciStarts, true_iff]
    exact ⟨[], s, rfl, rfl⟩
  | cons p ps ih =>
    intro s
    cases s with
    | nil =>
      simp only [ciStarts, Bool.false_eq_true, false_iff]
      rintro ⟨op, rest, h1, h2⟩
      cases op with
      | nil => simp [ciListEq] at h2
      | cons o os => simp at h1
    | cons c cs =>
      simp only [ciStarts, Bool.and_eq_true]
      constructor
      · rintro ⟨hce, hrest⟩
        obtain ⟨op, rest, rfl, hop⟩ := (ih cs).1 hrest
        exact ⟨c :: op, rest, rfl, by simp [ciListEq, Bool.and_eq_true, hce, hop]⟩
      · rintro ⟨op, rest, heq, hop⟩
        cases op with
        | nil => simp [ciListEq] at hop
        | cons o os =>
          simp only [List.cons_append, List.cons.injEq] at heq
          obtain ⟨rfl, rfl⟩ := heq
          simp only [ciListEq, Bool.and_eq_true] at hop
          exact ⟨hop.1, (ih (os ++ rest)).2 ⟨os, rest, rfl, hop.2⟩⟩

theorem scanClose_iff (close : List Char) (hne : close ≠ []) :
    ∀ s, scanClose close s = true ↔
      ∃ body cl post, s = body ++ (cl ++ post) ∧
        (∀ c ∈ body, isLineTerm c = false) ∧ ciListEq cl close = true := by
  intro s
  induction s with
  | nil =>
    simp only [scanClose, Bool.false_eq_true, false_iff]
    rintro ⟨body, cl, post, h1, h2, h3⟩
    have hb : body = [] ∧ cl ++ post = [] := by
      constructor
      · cases body with
        | nil => rfl
        | cons x xs => simp at h1
      · cases body with
        | nil => simpa using h1.symm
        | cons x xs => simp at h1
    have hcl : cl = [] := by
      have := hb.2
      cases cl with
      | nil => rfl
      | cons y ys => simp at this
    subst hcl
    cases close with
    | nil => exact hne rfl
    | cons d ds => simp [ciListEq] at h3
  | cons c cs ih =>
    simp only [scanClose, Bool.or_eq_true, Bool.and_eq_true, Bool.not_eq_true']
    constructor
    · rintro (h | ⟨hterm, hrest⟩)
      · obtain ⟨cl, post, heq, hcl⟩ := (ciStarts_iff close (c :: cs)).1 h
        exact ⟨[], cl, post, by simpa using heq, by simp, hcl⟩
      · obtain ⟨body, cl, post, heq, hbody, hcl⟩ := (ih).1 hrest
        refine ⟨c :: body, cl, post, by simp [heq], ?_, hcl⟩
        intro x hx
        rcases List.mem_cons.1 hx with rfl | hx
        · exact hterm
        · exact hbody x hx
    · rintro ⟨body, cl, post, heq, hbody, hcl⟩
      cases body with
      | nil =>
        left
        exact (ciStarts_iff close (c :: cs)).2 ⟨cl, post, by simpa using heq, hcl⟩
      | cons b bs =>
        right
        simp only [List.cons_append, List.cons.injEq] at heq
        obtain ⟨rfl, heq2⟩ := heq
        refine ⟨hbody c (List.mem_cons_self c bs), ?_⟩
        exact ih.2 ⟨bs, cl, post, heq2, fun x hx => hbody x (List.mem_cons_of_mem c hx), hcl⟩

theorem scanGt_iff (close : List Char) :
    ∀ s, scanGt close s = true ↔
      ∃ attrs rest, s = attrs ++ '>' :: rest ∧
        (∀ c ∈ attrs, c ≠ '>') ∧ scanClose close rest = true := by
  intro s
  induction s with
  | nil =>
    simp only [scanGt, Bool.false_eq_true, false_iff]
    rintro ⟨attrs, rest, h1, h2, h3⟩
    cases attrs with
    | nil => simp at h1
    | cons a as => simp at h1
  | cons c cs ih =>
    simp only [scanGt]
    by_cases hc : c = '>'
    · subst hc
      simp only [beq_self_eq_true, if_true]
      constructor
      · intro h
        exact ⟨[], cs, by simp, by simp, h⟩
      · rintro ⟨attrs, rest, heq, hattrs, hclose⟩
        cases attrs with
        | nil =>
          simp only [List.nil_append, List.cons.injEq] at heq
          rw [heq.2]
          exact hclose
        | cons a as =>
          simp only [List.cons_append, List.cons.injEq] at heq
          exact absurd heq.1.symm (hattrs a (List.mem_cons_self a as))
    · rw [if_neg (by simpa using hc)]
      constructor
      · intro h
        obtain ⟨attrs, rest, heq, hattrs, hclose⟩ := ih.1 h
        refine ⟨c :: attrs, rest, by simp [heq], ?_, hclose⟩
        intro x hx
        rcases List.mem_cons.1 hx with rfl | hx
        · exact hc
        · exact hattrs x hx
      · rintro ⟨attrs, rest, heq, hattrs, hclose⟩
        cases attrs with
        | nil =>
          simp only [List.nil_append, List.cons.injEq] at heq
          exact absurd heq.1 hc
        | cons a as =>
          simp only [List.cons_append, List.cons.injEq] at heq
          obtain ⟨rfl, heq2⟩ := heq
          exact ih.2 ⟨as, rest, heq2, fun x hx => hattrs x (List.mem_cons_of_mem c hx), hclose⟩

theorem dropAppendLen : ∀ (a b : List Char), (a ++ b).drop a.length = b
  | [], b => rfl
  | x :: xs, b => by simp [List.drop, dropAppendLen xs b]

theorem scanOpen_iff (opener close : List Char) (hc : close ≠ []) :
    ∀ s, scanOpen opener close s = true ↔ RegexHit opener close s := by
  intro s
  induction s with
  | nil =>
    simp only [scanOpen, Bool.false_eq_true, false_iff]
    rintro ⟨pre, op, attrs, body, cl, post, h1, h2, h3, h4, h5⟩
    have hlen := congrArg List.length h1
    simp [List.length_append] at hlen
    omega
  | cons c cs ih =>
    simp only [scanOpen, Bool.or_eq_true, Bool.and_eq_true]
    constructor
    · rintro (⟨hstart, hgt⟩ | h)
      · obtain ⟨op, rest2, heq, hop⟩ := (ciStarts_iff opener (c :: cs)).1 hstart
        have hlen : op.length = opener.length := ciListEq_length op opener hop
        have hdrop : (c :: cs).drop opener.length = rest2 := by
          rw [heq, ← hlen, dropAppendLen]
        rw [hdrop] at hgt
        obtain ⟨attrs, rest3, heq2, hattrs, hclose⟩ := (scanGt_iff close rest2).1 hgt
        obtain ⟨body, cl, post, heq3, hbody, hcl⟩ := (scanClose_iff close hc rest3).1 hclose
        refine ⟨[], op, attrs, body, cl, post, ?_, hop, hattrs, hbody, hcl⟩
        simp [heq, heq2, heq3]
      · obtain ⟨pre, op, attrs, body, cl, post, h1, h2, h3, h4, h5⟩ := ih.1 h
        exact ⟨c :: pre, op, attrs, body, cl, post, by simp [h1], h2, h3, h4, h5⟩
    · rintro ⟨pre, op, attrs, body, cl, post, h1, h2, h3, h4, h5⟩
      cases pre with
      | nil =>
        left
        simp only [List.nil_append] at h1
        have hstart : ciStarts opener (c :: cs) = true :=
          (ciStarts_iff opener (c :: cs)).2
            ⟨op, attrs ++ ('>' :: body ++ (cl ++ post)), by simp [h1], h2⟩
        refine ⟨hstart, ?_⟩
        have hlen : op.length = opener.length := ciListEq_length op opener h2
        have hdrop : (c :: cs).drop opener.length = attrs ++ ('>' :: body ++ (cl ++ post)) := by
          rw [h1, ← hlen]
          simp [dropAppendLen op (attrs ++ ('>' :: body ++ (cl ++ post)))]
        rw [hdrop]
        refine (scanGt_iff close _).2 ⟨attrs, body ++ (cl ++ post), by simp, h3, ?_⟩
        exact (scanClose_iff close hc _).2 ⟨body, cl, post, rfl, h4, h5⟩
      | cons p ps =>
        right
        simp only [List.cons_append, List.cons.injEq] at h1
        obtain ⟨rfl, h12⟩ := h1
        exact ih.2 ⟨ps, op, attrs, body, cl, post, h12, h2, h3, h4, h5⟩

theorem handler_eq_body (env : Env) (input : Input)
    (hm : env.method ≠ "OPTIONS") (hb : env.body = Except.ok input) :
    handler env = handlerBody env input := by
  unfold handler
  rw [if_neg hm, hb]

/-! ## Claims -/

/-- C1 (amended): for every generation-job request that passes validation
and the quota check, the handler sets the tracking record to in-progress
and then performs exactly one terminal transition (completed or failed);
the terminal state is failed iff the response carries success false; the
error-message field is non-empty only on a failed update; and the postId
link is set iff an article document was persisted (document ids are
assumed non-empty). The original claim is refuted by c1_counterexample:
a request refused by the quota check receives an error response with no
tracking transition at all. -/
theorem c1_tracking_lifecycle (env : Env) (input : Input)
    (hm : env.method ≠ "OPTIONS")
    (hb : env.body = Except.ok input)
    (hs : input.sources ≠ SourcesVal.nullVal)
    (hv : ¬(input.userId = "" ∨ input.prompt = "" ∨ input.title = "" ∨
      input.category = "" ∨ input.trackingId = ""))
    (hstyle : (maxOutputTokens input.style).isNone = false)
    (hq : checkUserPreferences input.userId input.requestType env.prefs1 = Except.ok ())
    (hdoc : env.createDoc ≠ Except.ok "") :
    ∃ term : TrackingUpdate,
      (handler env).trackingUpdates =
        [mkTrackingUpdate input.trackingId "inprogress" "" none, term] ∧
      term.trackingId = input.trackingId ∧
      (term.status = "completed" ∨ term.status = "failed") ∧
      ((term.status = "failed") ↔ (handler env).response.success = some false) ∧
      (∀ u ∈ (handler env).trackingUpdates, u.errorMsg ≠ "" → u.status = "failed") ∧
      ((∃ d, term.postId = some d ∧ (handler env).articlesCreated = [d]) ∨
        (term.postId = none ∧ (handler env).articlesCreated = [])) := by
  rw [handler_eq_body env input hm hb]
  unfold handlerBody
  rw [if_neg hs, if_neg hv, if_neg (by simp [hstyle])]
  simp only [hq]
  cases hgen : generateArticleContent env.gemini with
  | error e =>
    simp only [hgen]
    refine ⟨mkTrackingUpdate input.trackingId "failed" e none, rfl, rfl, Or.inr rfl, ?_, ?_, ?_⟩
    · simp [mkTrackingUpdate, errResp]
    · intro u hu
      rcases List.mem_cons.1 hu with rfl | hu
      · intro h
        exact absurd rfl h
      · rcases List.mem_cons.1 hu with rfl | hu
        · intro _
          rfl
        · simp at hu
    · right
      constructor <;> trivial
  | ok content =>
    simp only [hgen]
    by_cases hval : isValidHTMLContent content = false
    · rw [if_pos hval]
      refine ⟨mkTrackingUpdate input.trackingId "failed" validationFailedMsg none,
        rfl, rfl, Or.inr rfl, ?_, ?_, ?_⟩
      · simp [mkTrackingUpdate, errResp]
      · intro u hu
        rcases List.mem_cons.1 hu with rfl | hu
        · intro h
          exact absurd rfl h
        · rcases List.mem_cons.1 hu with rfl | hu
          · intro _
            rfl
          · simp at hu
      · right
        constructor <;> trivial
    · rw [if_neg hval]
      cases hcd : env.createDoc with
      | error m =>
        simp only [hcd]
        refine ⟨mkTrackingUpdate input.trackingId "failed" createArticleFailedMsg none,
          rfl, rfl, Or.inr rfl, ?_, ?_, ?_⟩
        · simp [mkTrackingUpdate, errResp]
        · intro u hu
          rcases List.mem_cons.1 hu with rfl | hu
          · intro h
            exact absurd rfl h
          · rcases List.mem_cons.1 hu with rfl | hu
            · intro _
              rfl
            · simp at hu
        · right
          constructor <;> trivial
      | ok docId =>
        simp only [hcd]
        have hdne : docId ≠ "" := by
          intro h
          exact hdoc (by rw [hcd, h])
        refine ⟨mkTrackingUpdate input.trackingId "completed" "" (some docId),
          rfl, rfl, Or.inl rfl, ?_, ?_, ?_⟩
        · simp [mkTrackingUpdate]
        · intro u hu
          rcases List.mem_cons.1 hu with rfl | hu
          · intro h
            exact absurd rfl h
          · rcases List.mem_cons.1 hu with rfl | hu
            · intro h
              exact absurd rfl h
            · simp at hu
        · left
          refine ⟨docId, ?_, by trivial⟩
          simp [mkTrackingUpdate, hdne]
/-- C2: on every invocation of the orchestrator, either no quota write is
performed at all, or the invocation succeeded: the response carries
success true, an article document was persisted, and the single quota
write is exactly the record produced by decrementUserQuota for the
requested tier (step 8, after persistence). Every failure path performs
zero quota writes. -/
theorem c2_quota_only_after_persist (env : Env) :
    (handler env).quotaWrites = [] ∨
    ((handler env).response.success = some true ∧
      (handler env).articlesCreated ≠ [] ∧
      ∃ input, env.body = Except.ok input ∧
        (handler env).quotaWrites =
          (decrementUserQuota input.userId input.requestType env.prefs2).toList) := by
  by_cases hm : env.method = "OPTIONS"
  · left
    unfold handler
    rw [if_pos hm]
    trivial
  · cases hb : env.body with
    | error m =>
      left
      unfold handler
      rw [if_neg hm, hb]
      trivial
    | ok input =>
      rw [handler_eq_body env input hm hb]
      unfold handlerBody
      by_cases hs : input.sources = SourcesVal.nullVal
      · rw [if_pos hs]
        left
        trivial
      · rw [if_neg hs]
        by_cases hv : (input.userId = "" ∨ input.prompt = "" ∨ input.title = "" ∨
            input.category = "" ∨ input.trackingId = "")
        · rw [if_pos hv]
          left
          trivial
        · rw [if_neg hv]
          by_cases hstyle : (maxOutputTokens input.style).isNone = true
          · rw [if_pos hstyle]
            left
            trivial
          · rw [if_neg hstyle]
            cases hq : checkUserPreferences input.userId input.requestType env.prefs1 with
            | error e =>
              simp only [hq]
              left
              trivial
            | ok u =>
              simp only [hq]
              cases hgen : generateArticleContent env.gemini with
              | error e =>
                simp only [hgen]
                left
                trivial
              | ok content =>
                simp only [hgen]
                by_cases hval : isValidHTMLContent content = false
                · rw [if_pos hval]
                  left
                  trivial
                · rw [if_neg hval]
                  cases hcd : env.createDoc with
                  | error m =>
                    simp only [hcd]
                    left
                    trivial
                  | ok docId =>
                    simp only [hcd]
                    right
                    refine ⟨by trivial, by simp, input, by trivial, by trivial⟩

/-- C7: a validated generation-job request whose remaining counter for
the requested tier is at most 0 is answered with a 403 error response,
and no article document is created (and no tracking update happens). -/
theorem c7_quota_exhausted_403 (env : Env) (input : Input) (prefs : Prefs) (usageField : String)
    (hm : env.method ≠ "OPTIONS")
    (hb : env.body = Except.ok input)
    (hs : input.sources ≠ SourcesVal.nullVal)
    (hv : ¬(input.userId = "" ∨ input.prompt = "" ∨ input.title = "" ∨
      input.category = "" ∨ input.trackingId = ""))
    (hstyle : (maxOutputTokens input.style).isNone = false)
    (hp : env.prefs1 = Except.ok prefs)
    (hf : getUsageFieldForRequestType input.requestType = some usageField)
    (hq0 : (prefs usageField).getD 0 ≤ 0) :
    (handler env).response.status = 403 ∧
    (handler env).response.success = some false ∧
    (handler env).articlesCreated = [] ∧
    (handler env).trackingUpdates = [] := by
  have hu : input.userId ≠ "" := fun h => hv (Or.inl h)
  have hcheck : checkUserPreferences input.userId input.requestType env.prefs1 =
      Except.error ("Insufficient " ++ input.requestType ++ " uses.") := by
    unfold checkUserPreferences
    rw [if_neg hu, hp]
    simp only [resolvePrefs, hf]
    rw [if_pos hq0]
  rw [handler_eq_body env input hm hb]
  unfold handlerBody
  rw [if_neg hs, if_neg hv, if_neg (by simp [hstyle])]
  simp only [hcheck]
  exact ⟨rfl, rfl, rfl, rfl⟩

/-- C1 counterexample: the invocation c1CexEnv passes input validation,
receives an error response (success false), and yet its tracking record
undergoes zero transitions, neither to in-progress nor to a terminal
state, contradicting the claimed exactly-once terminal transition and
the failed-iff-error-response equivalence. -/
theorem c1_counterexample :
    (¬(c1CexInput.userId = "" ∨ c1CexInput.prompt = "" ∨ c1CexInput.title = "" ∨
      c1CexInput.category = "" ∨ c1CexInput.trackingId = "")) ∧
    (maxOutputTokens c1CexInput.style).isNone = false ∧
    c1CexEnv.body = Except.ok c1CexInput ∧
    (handler c1CexEnv).response.success = some false ∧
    (handler c1CexEnv).response.status = 403 ∧
    terminalUpdateCount (handler c1CexEnv) = 0 ∧
    (handler c1CexEnv).trackingUpdates = [] := by
  refine ⟨by decide, by decide, rfl, ?_, ?_, ?_, ?_⟩ <;> decide

/-- C1 witness: a fully successful invocation instantiating
c1_tracking_lifecycle, with each hypothesis discharged concretely. -/
theorem c1_tracking_lifecycle_witness :
    c1Env.method ≠ "OPTIONS" ∧
    checkUserPreferences c1Input.userId c1Input.requestType c1Env.prefs1 = Except.ok () ∧
    (∃ term : TrackingUpdate,
      (handler c1Env).trackingUpdates =
        [mkTrackingUpdate c1Input.trackingId "inprogress" "" none, term] ∧
      term.trackingId = c1Input.trackingId ∧
      (term.status = "completed" ∨ term.status = "failed") ∧
      ((term.status = "failed") ↔ (handler c1Env).response.success = some false) ∧
      (∀ u ∈ (handler c1Env).trackingUpdates, u.errorMsg ≠ "" → u.status = "failed") ∧
      ((∃ d, term.postId = some d ∧ (handler c1Env).articlesCreated = [d]) ∨
        (term.postId = none ∧ (handler c1Env).articlesCreated = []))) :=
  ⟨by decide, rfl,
    c1_tracking_lifecycle c1Env c1Input (by decide) rfl (by decide) (by decide) rfl rfl
      (fun h => absurd (Except.ok.inj h) (by decide))⟩

/-- C2 witness: the empty-generation invocation c2Env instantiating
c2_quota_only_after_persist; the run fails and performs no quota
write. -/
theorem c2_quota_witness :
    (handler c2Env).quotaWrites = [] ∨
    ((handler c2Env).response.success = some true ∧
      (handler c2Env).articlesCreated ≠ [] ∧
      ∃ input, c2Env.body = Except.ok input ∧
        (handler c2Env).quotaWrites =
          (decrementUserQuota input.userId input.requestType c2Env.prefs2).toList) :=
  c2_quota_only_after_persist c2Env

/-- C3: the request c3Input supplies the tracking id trackD, and the
null sources value makes the logging section throw before validation;
the claim (and the source comment structure) expect the top-level catch
to mark the tracking record failed, but the catch reads the outer
trackingId variable, still null because the destructured constant
shadows it, so no tracking update is performed and only the 500 response
with the exception message is returned. -/
theorem c3_catch_skips_tracking_update :
    c3Input.trackingId = "trackD" ∧
    (handler c3Env).trackingUpdates = [] ∧
    (handler c3Env).response = errResp 500 nullSourcesMsg := by
  refine ⟨by decide, ?_, ?_⟩ <;> decide

/-- C4: for a valid user id and a tier mapped to a usage field,
decrementUserQuota writes back the record whose usage field is
max 0 (c - 1) for the read value c (0 when the field is absent); the
written counter is never negative, and decrementing from 0 yields 0. -/
theorem c4_decrement_clamped (userId requestType usageField : String) (prefs : Prefs)
    (hu : userId ≠ "")
    (hf : getUsageFieldForRequestType requestType = some usageField)
    (hc : 0 ≤ (prefs usageField).getD 0) :
    ∃ written : Prefs,
      decrementUserQuota userId requestType (Except.ok prefs) = some written ∧
      written usageField = some (max 0 ((prefs usageField).getD 0 - 1)) ∧
      0 ≤ (written usageField).getD 0 ∧
      ((prefs usageField).getD 0 = 0 → written usageField = some 0) := by
  refine ⟨fun f => if f = usageField then some (max 0 ((prefs usageField).getD 0 - 1))
    else prefs f, ?_, ?_, ?_, ?_⟩
  · unfold decrementUserQuota
    rw [if_neg hu]
    show (match resolvePrefs (Except.ok prefs) with
      | .error _ => none
      | .ok currentPrefs => _) = _
    simp only [resolvePrefs, hf]
  · simp
  · simp only [if_pos rfl, Option.getD_some]
    exact le_max_left 0 _
  · intro h
    simp [h]

/-- C4 witness: decrementing the basic tier from the value 0 writes the
value 0 back. -/
theorem c4_decrement_clamped_witness :
    ("user4" : String) ≠ "" ∧
    getUsageFieldForRequestType "basic" = some "basic_uses" ∧
    0 ≤ (c4Prefs "basic_uses").getD 0 ∧
    (∃ written : Prefs,
      decrementUserQuota "user4" "basic" (Except.ok c4Prefs) = some written ∧
      written "basic_uses" = some (max 0 ((c4Prefs "basic_uses").getD 0 - 1)) ∧
      0 ≤ (written "basic_uses").getD 0 ∧
      ((c4Prefs "basic_uses").getD 0 = 0 → written "basic_uses" = some 0)) :=
  ⟨by decide, by decide, by decide,
    c4_decrement_clamped "user4" "basic" "basic_uses" c4Prefs (by decide) (by decide) (by decide)⟩

/-- C5: isValidHTMLContent is true exactly when one of the two source
regular expressions has a case-insensitive match: an h2 opening tag with
attribute characters, a body without line terminators and the h2 closing
tag, or the analogous p element pair; concretely it accepts an h2
example and a p example and rejects plain text. -/
theorem c5_validator_characterization :
    (∀ s : String, isValidHTMLContent s = true ↔
      (RegexHit "<h2".toList "</h2>".toList s.toList ∨
        RegexHit "<p".toList "</p>".toList s.toList)) ∧
    isValidHTMLContent "<h2>x</h2>" = true ∧
    isValidHTMLContent "<p>x</p>" = true ∧
    isValidHTMLContent "plain text" = false := by
  refine ⟨fun s => ?_, by decide, by decide, by decide⟩
  unfold isValidHTMLContent
  rw [Bool.or_eq_true, scanOpen_iff _ _ (by decide), scanOpen_iff _ _ (by decide)]

/-- C6: when the preference lookup fails, checkUserPreferences behaves on
a not-found failure (code 404 or a not-found message) exactly as on a
successful lookup returning the zero-valued default record, and
propagates the message of any other failure as its error result. -/
theorem c6_prefs_notfound_soft (userId requestType : String) (e : AwErr)
    (hu : userId ≠ "") :
    (isNotFoundErr e = true →
      checkUserPreferences userId requestType (Except.error e) =
        checkUserPreferences userId requestType (Except.ok defaultQuotaPrefs)) ∧
    (isNotFoundErr e = false →
      checkUserPreferences userId requestType (Except.error e) = Except.error e.message) := by
  constructor
  · intro h
    unfold checkUserPreferences
    simp [resolvePrefs, h]
  · intro h
    unfold checkUserPreferences
    rw [if_neg hu]
    simp [resolvePrefs, h]

/-- C6 witness: a 404 lookup failure is handled as the default record,
and a 500 lookup failure propagates its message. -/
theorem c6_prefs_notfound_soft_witness :
    ("user6" : String) ≠ "" ∧
    isNotFoundErr { code := 404, message := "x" } = true ∧
    checkUserPreferences "user6" "basic" (Except.error { code := 404, message := "x" }) =
      checkUserPreferences "user6" "basic" (Except.ok defaultQuotaPrefs) ∧
    isNotFoundErr { code := 500, message := "boom" } = false ∧
    checkUserPreferences "user6" "basic" (Except.error { code := 500, message := "boom" }) =
      Except.error "boom" :=
  ⟨by decide, by decide,
    (c6_prefs_notfound_soft "user6" "basic" { code := 404, message := "x" } (by decide)).1
      (by decide),
    by decide,
    (c6_prefs_notfound_soft "user6" "basic" { code := 500, message := "boom" } (by decide)).2
      (by decide)⟩

/-- C7 witness: the zero-quota invocation c7Env instantiating
c7_quota_exhausted_403. -/
theorem c7_quota_exhausted_403_witness :
    (c7Prefs "basic_uses").getD 0 ≤ 0 ∧
    ((handler c7Env).response.status = 403 ∧
      (handler c7Env).response.success = some false ∧
      (handler c7Env).articlesCreated = [] ∧
      (handler c7Env).trackingUpdates = []) :=
  ⟨by decide,
    c7_quota_exhausted_403 c7Env c7Input c7Prefs "basic_uses" (by decide) rfl
      (by decide) (by decide) rfl rfl (by decide) (by decide)⟩

/-- C8: whenever decrementUserQuota attempts a write, the written record
is the record read (including the not-found default case) updated only at
the usage field of the requested tier; every other field keeps exactly
the value that was read. -/
theorem c8_decrement_frame (userId requestType : String)
    (prefsRes : Except AwErr Prefs) (written : Prefs)
    (h : decrementUserQuota userId requestType prefsRes = some written) :
    ∃ usageField currentPrefs,
      getUsageFieldForRequestType requestType = some usageField ∧
      resolvePrefs prefsRes = .ok currentPrefs ∧
      written usageField = some (max 0 ((currentPrefs usageField).getD 0 - 1)) ∧
      ∀ f, f ≠ usageField → written f = currentPrefs f := by
  unfold decrementUserQuota at h
  by_cases hu : userId = ""
  · rw [if_pos hu] at h
    simp at h
  · rw [if_neg hu] at h
    cases hres : resolvePrefs prefsRes with
    | error m => rw [hres] at h; simp at h
    | ok currentPrefs =>
      rw [hres] at h
      cases hfield : getUsageFieldForRequestType requestType with
      | none => rw [hfield] at h; simp at h
      | some usageField =>
        rw [hfield] at h
        simp only [Option.some.injEq] at h
        refine ⟨usageField, currentPrefs, rfl, rfl, ?_, ?_⟩
        · rw [← h]
          simp
        · intro f hf
          rw [← h]
          simp [hf]

/-- C8 witness: decrementing the basic tier of a record with an unrelated
bio field preserves that field. -/
theorem c8_decrement_frame_witness :
    decrementUserQuota "user8" "basic" (Except.ok c8Prefs) = some c8Written ∧
    (∃ usageField currentPrefs,
      getUsageFieldForRequestType "basic" = some usageField ∧
      resolvePrefs (Except.ok c8Prefs) = .ok currentPrefs ∧
      c8Written usageField = some (max 0 ((currentPrefs usageField).getD 0 - 1)) ∧
      ∀ f, f ≠ usageField → c8Written f = currentPrefs f) :=
  ⟨rfl, c8_decrement_frame "user8" "basic" (Except.ok c8Prefs) c8Written rfl⟩

/-- C9: every POST invocation of the contains-search fetch-user handler
with the environment configured and a userId that is non-empty after
trimming returns the generic 500 response with the error text Failed to
fetch user: the console.console.log statement throws a TypeError before
the user lookup, so the success branch is unreachable. -/
theorem c9_contains_handler_always_500 (env : FetchEnv) (b : FetchBody)
    (he : env.endpointSet = true) (hp : env.projectSet = true)
    (hk : env.apiKeySet = true) (hm : env.method = "POST")
    (hb : env.body = Except.ok b) (hu : jsTrim b.userId ≠ "") :
    fetchUserByContains env = FetchResp.failure 500 "Failed to fetch user" := by
  unfold fetchUserByContains
  rw [he, hp, hk, hm, hb]
  simp only [Bool.true_eq_false, if_false, ne_eq, not_true_eq_false, if_false]
  have huid : ¬(b.userId = "" ∨ jsTrim b.userId = "") := by
    rintro (h | h)
    · exact hu (by rw [h]; decide)
    · exact hu h
  rw [if_neg huid]
  decide

/-- C9 witness: the concrete POST invocation c9Env with userId abc123
returns the generic 500 response. -/
theorem c9_contains_handler_always_500_witness :
    jsTrim "abc123" ≠ "" ∧
    fetchUserByContains c9Env = FetchResp.failure 500 "Failed to fetch user" :=
  ⟨by decide,
    c9_contains_handler_always_500 c9Env { userId := "abc123" } rfl rfl rfl rfl rfl
      (by decide)⟩

/-- C10: the daily preferences reset writes, for each processed user, the
existing preference record overridden only at the three usage fields,
set to 999 each when the labels include admin and to 10, 5 and 3
otherwise; every other field keeps its existing value. -/
theorem c10_daily_reset_values (userPrefs : Option Prefs) (labels : Option (List String)) :
    dailyPrefsForUser userPrefs labels "basic_uses" =
      some (if isAdminUser labels then 999 else 10) ∧
    dailyPrefsForUser userPrefs labels "pro_uses" =
      some (if isAdminUser labels then 999 else 5) ∧
    dailyPrefsForUser userPrefs labels "ultra_uses" =
      some (if isAdminUser labels then 999 else 3) ∧
    ∀ f, f ≠ "basic_uses" → f ≠ "pro_uses" → f ≠ "ultra_uses" →
      dailyPrefsForUser userPrefs labels f = (userPrefs.getD emptyPrefs) f := by
  refine ⟨?_, ?_, ?_, ?_⟩
  · simp [dailyPrefsForUser, dailyUsageValues]
  · simp [dailyPrefsForUser, dailyUsageValues]
  · simp [dailyPrefsForUser, dailyUsageValues]
  · intro f h1 h2 h3
    simp [dailyPrefsForUser, dailyUsageValues, h1, h2, h3]

/-- C10 witness: an admin user has the basic counter reset to 999 while
the unrelated bio field keeps its value. -/
theorem c10_daily_reset_values_witness :
    ("bio" : String) ≠ "basic_uses" ∧
    dailyPrefsForUser (some c10Prefs) (some ["admin"]) "basic_uses" = some 999 ∧
    dailyPrefsForUser (some c10Prefs) (some ["admin"]) "bio" =
      ((some c10Prefs).getD emptyPrefs) "bio" :=
  ⟨by decide,
    by
      rw [(c10_daily_reset_values (some c10Prefs) (some ["admin"])).1]
      decide,
    (c10_daily_reset_values (some c10Prefs) (some ["admin"])).2.2.2 "bio"
      (by decide) (by decide) (by decide)⟩
